import Mathlib

/-!
Verification of the search request handler of `src/app/routes/api/search.ts`
(repository `llbbl/semantic-docs-hono`).

The handler is a single Hono route `app.all('/')`.  We give a shallow
embedding of its body as a pure Lean function.  JavaScript values that can
occur in the parsed JSON request body are modelled by `JSVal` (numbers are
modelled as integers, which covers every input the specification talks
about); the thrown values of the JavaScript `catch` clause are modelled by
`JsErr`; the Cloudflare AI search binding `c.env.AI.autorag(idx).search` is
modelled as an explicit function argument `provider`, and the handler result
records the argument of the provider call (`providerCall = none` means the
provider was never invoked on that request).

String length: JavaScript `query.length` counts UTF-16 code units; we use
Lean's `String.length`.  The two agree on all code points of the basic
multilingual plane, which covers every input considered here.
-/

/-- A JavaScript value as it can appear in a parsed JSON body field.
`undef` stands for an absent field (JavaScript `undefined`); `object`
stands for any non-primitive value (object or array), which is truthy and
whose `ToNumber` coercion we model as NaN. -/
inductive JSVal where
  | undef
  | nullV
  | boolean (b : Bool)
  | number (n : Int)
  | string (s : String)
  | object
deriving DecidableEq, Repr

/-- A thrown JavaScript value: either an `Error` object carrying a message
(`instanceof Error` holds) or any other thrown value, of which the handler
only uses its string conversion. -/
inductive JsErr where
  | errObj (message : String)
  | nonError (str : String)
deriving DecidableEq, Repr

/-- The result of destructuring the parsed JSON body:
`const body = await c.req.json(); const { query, limit = 10 } = body;`.
Both fields are arbitrary JavaScript values; an absent field is `JSVal.undef`
(the destructuring default for `limit` is applied inside `handleSearch`,
exactly where the source applies it). -/
structure SearchBody where
  query : JSVal
  limit : JSVal
deriving DecidableEq, Repr

/-- The argument triple of `c.env.AI.autorag(aiSearchIndex).search(...)`:
`query`, `max_num_results` (a JavaScript number, `none` modelling NaN) and
`rerank`. -/
structure ProviderArgs where
  query : String
  max_num_results : Option Int
  rerank : Bool
deriving DecidableEq, Repr

/-- One item of the provider response list.  Besides `content`, `score` and
`metadata` it carries a provider-specific extra field (`filename`), which the
normalization of the handler must drop. -/
structure ProviderItem where
  content : String
  score : ℚ
  metadata : JSVal
  filename : String
deriving DecidableEq, Repr

/-- The shape of a resolved provider response as far as the handler inspects
it: `nullish` models a falsy `searchResponse` (null or undefined), `obj r`
models an object whose `results` field is `r` (`none` when the field is
missing or nullish). -/
inductive ProviderResponse where
  | nullish
  | obj (results : Option (List ProviderItem))
deriving DecidableEq, Repr

/-- Outcome of the awaited provider call: it either throws/rejects with a
JavaScript value or resolves to a response. -/
inductive ProviderOutcome where
  | throws (e : JsErr)
  | resolves (r : ProviderResponse)
deriving DecidableEq, Repr

/-- A normalized search result `{ content, score, metadata }` as built by the
`searchResponse.results.map(...)` at lines 81 to 85 of the source. -/
structure SearchResult where
  content : String
  score : ℚ
  metadata : JSVal
deriving DecidableEq, Repr

/-- The JSON body of a handler response: either `{ error }`, or
`{ error, message }`, or the success shape `{ results, count, query }`. -/
inductive RespBody where
  | errorOnly (error : String)
  | errorMsg (error : String) (message : String)
  | success (results : List SearchResult) (count : Nat) (query : String)
deriving DecidableEq, Repr

/-- An HTTP response: status code and JSON body. -/
structure HttpResp where
  status : Nat
  body : RespBody
deriving DecidableEq, Repr

/-- The observable behaviour of one handler invocation: the HTTP response
and the argument of the single provider call, `none` when no provider call
was attempted. -/
structure HandlerResult where
  resp : HttpResp
  providerCall : Option ProviderArgs
deriving DecidableEq, Repr

/-- `error instanceof Error ? error.message : 'Unknown error'` — the message
put into the catch-block response (line 100 of the source). -/
def respMessage : JsErr → String
  | .errObj m => m
  | .nonError _ => "Unknown error"

/-- JavaScript `ToNumber` on the modelled values, with `none` standing for
NaN: `undefined ↦ NaN`, `null ↦ 0`, booleans to 0/1, a string to its trimmed
numeric value (empty/whitespace ↦ 0; non-integer numerals are outside the
modelled fragment and map to NaN), objects to NaN. -/
def toNumber : JSVal → Option Int
  | .undef => none
  | .nullV => some 0
  | .boolean b => some (if b then 1 else 0)
  | .number n => some n
  | .string s => if s.trim = "" then some 0 else s.trim.toInt?
  | .object => none

/-- `Math.min(Math.max(1, limit), 20)` (line 45 of the source), including the
`ToNumber` coercion both `Math.max` and `Math.min` perform; NaN propagates. -/
def sanitizedLimit (v : JSVal) : Option Int :=
  (toNumber v).map (fun n => min (max 1 n) 20)

/-- The `500 AI Search not configured` response (lines 50 to 59). -/
def notConfiguredResp : HttpResp :=
  ⟨500, .errorMsg "AI Search not configured"
    "AI_SEARCH_INDEX environment variable is not set. Please configure it in Cloudflare Dashboard."⟩

/-- The `500 Invalid search response` response (lines 69 to 78). -/
def invalidSearchResp : HttpResp :=
  ⟨500, .errorMsg "Invalid search response"
    "AI Search returned an invalid response. Check if the index exists and has data."⟩

/-- Shallow embedding of the route handler of `src/app/routes/api/search.ts`.

* `method` is `c.req.method`.
* `parsed` is the outcome of `await c.req.json()`: `.error e` when JSON
  deserialization throws `e` (the throw is then handled by the catch block,
  as in the source, where the `try` spans the parse), `.ok body` otherwise.
* `aiSearchIndex` is `c.env.AI_SEARCH_INDEX` (`none` = unset; the source
  guard `!aiSearchIndex` also fires on the empty string).
* `provider` is the awaited `c.env.AI.autorag(idx).search` call.

The query guard `!query || typeof query !== 'string'` (line 29) rejects
every non-string and also the empty string, which is falsy. -/
def handleSearch (method : String) (parsed : Except JsErr SearchBody)
    (aiSearchIndex : Option String)
    (provider : ProviderArgs → ProviderOutcome) : HandlerResult :=
  if method ≠ "POST" then
    ⟨⟨405, .errorMsg "Method not allowed" "Use POST method for search"⟩, none⟩
  else
    match parsed with
    | .error e => ⟨⟨500, .errorMsg "Search failed" (respMessage e)⟩, none⟩
    | .ok body =>
      match body.query with
      | .string s =>
        if s = "" then
          ⟨⟨400, .errorOnly "Query parameter is required"⟩, none⟩
        else if s.length > 500 then
          ⟨⟨400, .errorMsg "Query too long" "Query must be less than 500 characters"⟩, none⟩
        else
          let limit := if body.limit = .undef then JSVal.number 10 else body.limit
          let sanitized := sanitizedLimit limit
          match aiSearchIndex with
          | none => ⟨notConfiguredResp, none⟩
          | some idx =>
            if idx = "" then ⟨notConfiguredResp, none⟩
            else
              let args : ProviderArgs := ⟨s, sanitized, true⟩
              match provider args with
              | .throws e =>
                ⟨⟨500, .errorMsg "Search failed" (respMessage e)⟩, some args⟩
              | .resolves .nullish => ⟨invalidSearchResp, some args⟩
              | .resolves (.obj none) => ⟨invalidSearchResp, some args⟩
              | .resolves (.obj (some items)) =>
                let results := items.map
                  (fun r => (⟨r.content, r.score, r.metadata⟩ : SearchResult))
                ⟨⟨200, .success results results.length s⟩, some args⟩
      | _ => ⟨⟨400, .errorOnly "Query parameter is required"⟩, none⟩

/-- A provider stub used to instantiate theorems at concrete inputs. -/
def stubProvider : ProviderArgs → ProviderOutcome :=
  fun _ => .resolves (.obj (some []))

example :
    (handleSearch "POST" (.ok ⟨.string "deploy app", .number 5⟩) (some "docs")
      stubProvider).resp.status = 200 := by decide

example :
    (handleSearch "POST" (.ok ⟨.string "", .undef⟩) (some "docs")
      stubProvider).resp.status = 400 := by decide

/-- Helper: for a non-empty query within the length limit and a configured
index, the provider is invoked with the query and the sanitized limit,
whatever the provider then does. -/
theorem providerCall_of_valid (s idx : String) (lim : JSVal)
    (provider : ProviderArgs → ProviderOutcome)
    (hs : s ≠ "") (hlen : s.length ≤ 500) (hidx : idx ≠ "") :
    (handleSearch "POST" (.ok ⟨.string s, lim⟩) (some idx) provider).providerCall =
      some ⟨s, sanitizedLimit (if lim = JSVal.undef then JSVal.number 10 else lim), true⟩ := by
  have hlen' : ¬ s.length > 500 := by omega
  cases hp : provider ⟨s, sanitizedLimit (if lim = JSVal.undef then JSVal.number 10 else lim), true⟩ with
  | throws e => simp [handleSearch, hs, hlen', hidx, hp]
  | resolves r =>
    cases r with
    | nullish => simp [handleSearch, hs, hlen', hidx, hp]
    | obj o => cases o <;> simp [handleSearch, hs, hlen', hidx, hp]

/-- Helper: for a non-empty query within the length limit and a configured
index, the response status is 200 or 500 (depending on the provider). -/
theorem status_of_valid (s idx : String) (lim : JSVal)
    (provider : ProviderArgs → ProviderOutcome)
    (hs : s ≠ "") (hlen : s.length ≤ 500) (hidx : idx ≠ "") :
    (handleSearch "POST" (.ok ⟨.string s, lim⟩) (some idx) provider).resp.status = 200 ∨
    (handleSearch "POST" (.ok ⟨.string s, lim⟩) (some idx) provider).resp.status = 500 := by
  have hlen' : ¬ s.length > 500 := by omega
  cases hp : provider ⟨s, sanitizedLimit (if lim = JSVal.undef then JSVal.number 10 else lim), true⟩ with
  | throws e => right; simp [handleSearch, hs, hlen', hidx, hp]
  | resolves r =>
    cases r with
    | nullish => right; simp [handleSearch, hs, hlen', hidx, hp, invalidSearchResp]
    | obj o =>
      cases o with
      | none => right; simp [handleSearch, hs, hlen', hidx, hp, invalidSearchResp]
      | some items => left; simp [handleSearch, hs, hlen', hidx, hp]

/-- C1 (counterexample): the empty string is a string of length at most 500,
yet the handler rejects it in validation with 400 "Query parameter is
required" and never forwards it to the provider, because the source guard
`!query` is true for the falsy empty string.  This refutes the claim as
stated. -/
theorem empty_query_rejected_cex :
    (handleSearch "POST" (.ok ⟨.string "", .undef⟩) (some "docs") stubProvider).resp =
      ⟨400, .errorOnly "Query parameter is required"⟩ ∧
    (handleSearch "POST" (.ok ⟨.string "", .undef⟩) (some "docs") stubProvider).providerCall =
      none := by
  exact ⟨rfl, rfl⟩

/-- C1 (amended): for every request body whose query field is a NON-EMPTY
string of length at most 500, with the provider index configured, the
handler does not reject the request in validation (the status is never 400)
and the query is forwarded to the Search Provider as given. -/
theorem query_within_limit_forwarded (s idx : String) (lim : JSVal)
    (provider : ProviderArgs → ProviderOutcome)
    (hs : s ≠ "") (hlen : s.length ≤ 500) (hidx : idx ≠ "") :
    (handleSearch "POST" (.ok ⟨.string s, lim⟩) (some idx) provider).resp.status ≠ 400 ∧
    (handleSearch "POST" (.ok ⟨.string s, lim⟩) (some idx) provider).providerCall =
      some ⟨s, sanitizedLimit (if lim = JSVal.undef then JSVal.number 10 else lim), true⟩ := by
  refine ⟨?_, providerCall_of_valid s idx lim provider hs hlen hidx⟩
  rcases status_of_valid s idx lim provider hs hlen hidx with h | h <;> omega

/-- C1 (witness): the concrete query "deploy app" with no limit given is
forwarded with the default limit 10 and not rejected. -/
theorem query_within_limit_forwarded_witness :
    (handleSearch "POST" (.ok ⟨.string "deploy app", .undef⟩) (some "docs")
      stubProvider).resp.status ≠ 400 ∧
    (handleSearch "POST" (.ok ⟨.string "deploy app", .undef⟩) (some "docs")
      stubProvider).providerCall = some ⟨"deploy app", some 10, true⟩ :=
  query_within_limit_forwarded "deploy app" "docs" .undef stubProvider
    (by decide) (by decide) (by decide)

/-- C2 (counterexample): a rawBody failing JSON deserialization does NOT get
the claimed 400 "Invalid request" response: the parse exception reaches the
catch block, so the handler answers 500 "Search failed" with the parse
error message.  No "Invalid request" response exists in the source. -/
theorem invalid_json_cex :
    (handleSearch "POST" (.error (.errObj "Unexpected end of JSON input"))
      (some "docs") stubProvider).resp =
      ⟨500, .errorMsg "Search failed" "Unexpected end of JSON input"⟩ ∧
    (handleSearch "POST" (.error (.errObj "Unexpected end of JSON input"))
      (some "docs") stubProvider).resp.status ≠ 400 := by
  exact ⟨rfl, by decide⟩

/-- C2 (amended): for every rawBody that fails to deserialize as JSON, the
handler responds 500 with body error "Search failed" and message the parse
exception message when it is an Error, else "Unknown error"; the provider
is not invoked. -/
theorem invalid_json_search_failed (e : JsErr) (idx : Option String)
    (provider : ProviderArgs → ProviderOutcome) :
    handleSearch "POST" (.error e) idx provider =
      ⟨⟨500, .errorMsg "Search failed" (respMessage e)⟩, none⟩ := rfl

/-- C3: with AI_SEARCH_INDEX unset, a request passing validation gets the
500 "AI Search not configured" response and the provider is never invoked
on that request (providerCall is none). -/
theorem not_configured_no_provider_call (s : String) (lim : JSVal)
    (provider : ProviderArgs → ProviderOutcome)
    (hs : s ≠ "") (hlen : s.length ≤ 500) :
    handleSearch "POST" (.ok ⟨.string s, lim⟩) none provider =
      ⟨notConfiguredResp, none⟩ := by
  have hlen' : ¬ s.length > 500 := by omega
  simp [handleSearch, hs, hlen']

/-- C3 (witness): concrete request "deploy app" against an unset index. -/
theorem not_configured_no_provider_call_witness :
    handleSearch "POST" (.ok ⟨.string "deploy app", .undef⟩) none stubProvider =
      ⟨notConfiguredResp, none⟩ :=
  not_configured_no_provider_call "deploy app" .undef stubProvider (by decide) (by decide)

/-- C4: every exception thrown by the provider call is caught and answered
with 500, error "Search failed", and message the thrown Error message
(or "Unknown error" for a non-Error value); the handler always returns a
response, so no provider exception propagates to the transport layer. -/
theorem provider_throw_caught (s idx : String) (lim : JSVal) (e : JsErr)
    (hs : s ≠ "") (hlen : s.length ≤ 500) (hidx : idx ≠ "") :
    (handleSearch "POST" (.ok ⟨.string s, lim⟩) (some idx)
      (fun _ => .throws e)).resp =
      ⟨500, .errorMsg "Search failed" (respMessage e)⟩ := by
  have hlen' : ¬ s.length > 500 := by omega
  simp [handleSearch, hs, hlen', hidx]

/-- C4 (witness): a provider error with message "timeout" yields exactly
500 with error "Search failed" and message "timeout". -/
theorem provider_throw_caught_witness :
    (handleSearch "POST" (.ok ⟨.string "deploy app", .undef⟩) (some "docs")
      (fun _ => .throws (.errObj "timeout"))).resp =
      ⟨500, .errorMsg "Search failed" "timeout"⟩ :=
  provider_throw_caught "deploy app" "docs" .undef (.errObj "timeout")
    (by decide) (by decide) (by decide)

/-- C5: when the provider resolves with a results list, the handler answers
200 with the list mapped item-wise to exactly (content, score, metadata) —
dropping the provider-specific field and preserving order, no re-sorting —
with count equal to the length of the list (hence of the mapped results)
and the input query echoed unchanged. -/
theorem success_normalizes (s idx : String) (lim : JSVal)
    (items : List ProviderItem)
    (hs : s ≠ "") (hlen : s.length ≤ 500) (hidx : idx ≠ "") :
    (handleSearch "POST" (.ok ⟨.string s, lim⟩) (some idx)
      (fun _ => .resolves (.obj (some items)))).resp =
      ⟨200, .success
        (items.map (fun r => (⟨r.content, r.score, r.metadata⟩ : SearchResult)))
        items.length s⟩ := by
  have hlen' : ¬ s.length > 500 := by omega
  simp [handleSearch, hs, hlen', hidx]

/-- C5 (witness): a stub provider returning 3 items (with extra filename
fields) gives 200 with the 3 normalized results, count 3 and the query
echoed. -/
theorem success_normalizes_witness :
    (handleSearch "POST" (.ok ⟨.string "deploy app", .number 5⟩) (some "docs")
      (fun _ => .resolves (.obj (some
        [⟨"first", 9/10, .object, "a.md"⟩,
         ⟨"second", 3/4, .nullV, "b.md"⟩,
         ⟨"third", 1/2, .object, "c.md"⟩])))).resp =
      ⟨200, .success
        [⟨"first", 9/10, .object⟩, ⟨"second", 3/4, .nullV⟩, ⟨"third", 1/2, .object⟩]
        3 "deploy app"⟩ :=
  success_normalizes "deploy app" "docs" (.number 5)
    [⟨"first", 9/10, .object, "a.md"⟩,
     ⟨"second", 3/4, .nullV, "b.md"⟩,
     ⟨"third", 1/2, .object, "c.md"⟩]
    (by decide) (by decide) (by decide)

/-- C6: for a provided (numeric) limit v the effective limit passed to the
provider is min(max(1, v), 20) — a silent clamp, not an error — and with
limit absent the effective limit is the destructuring default 10. -/
theorem effective_limit_clamped (s idx : String) (v : Int)
    (provider : ProviderArgs → ProviderOutcome)
    (hs : s ≠ "") (hlen : s.length ≤ 500) (hidx : idx ≠ "") :
    (handleSearch "POST" (.ok ⟨.string s, .number v⟩) (some idx)
      provider).providerCall = some ⟨s, some (min (max 1 v) 20), true⟩ ∧
    (handleSearch "POST" (.ok ⟨.string s, .undef⟩) (some idx)
      provider).providerCall = some ⟨s, some 10, true⟩ := by
  constructor
  · rw [providerCall_of_valid s idx (.number v) provider hs hlen hidx]
    simp [sanitizedLimit, toNumber]
  · rw [providerCall_of_valid s idx .undef provider hs hlen hidx]
    simp [sanitizedLimit, toNumber]

/-- C6 (witness): limit 0 is clamped to 1; an absent limit becomes 10. -/
theorem effective_limit_clamped_witness :
    (handleSearch "POST" (.ok ⟨.string "docs", .number 0⟩) (some "my-index")
      stubProvider).providerCall = some ⟨"docs", some 1, true⟩ ∧
    (handleSearch "POST" (.ok ⟨.string "docs", .undef⟩) (some "my-index")
      stubProvider).providerCall = some ⟨"docs", some 10, true⟩ :=
  effective_limit_clamped "docs" "my-index" 0 stubProvider
    (by decide) (by decide) (by decide)

/-- C7: a query field that is missing (undefined), null, or not a string is
rejected with 400 and error "Query parameter is required", whatever the
limit, configuration and provider are. -/
theorem query_required (q lim : JSVal) (idx : Option String)
    (provider : ProviderArgs → ProviderOutcome)
    (hq : q = .undef ∨ q = .nullV ∨ ∀ s, q ≠ .string s) :
    handleSearch "POST" (.ok ⟨q, lim⟩) idx provider =
      ⟨⟨400, .errorOnly "Query parameter is required"⟩, none⟩ := by
  cases q with
  | undef => rfl
  | nullV => rfl
  | boolean b => rfl
  | number n => rfl
  | object => rfl
  | string s =>
    rcases hq with h | h | h
    · exact absurd h (by simp)
    · exact absurd h (by simp)
    · exact absurd rfl (h s)

/-- C7 (witness): a body with query explicitly null is rejected with 400
"Query parameter is required". -/
theorem query_required_witness :
    handleSearch "POST" (.ok ⟨.nullV, .number 5⟩) (some "docs") stubProvider =
      ⟨⟨400, .errorOnly "Query parameter is required"⟩, none⟩ :=
  query_required .nullV (.number 5) (some "docs") stubProvider (Or.inr (Or.inl rfl))

/-- C8: every string query longer than 500 characters, regardless of
content, limit, configuration and provider, is rejected with 400, error
"Query too long", message "Query must be less than 500 characters", and the
provider is not invoked. -/
theorem query_too_long (s : String) (lim : JSVal) (idx : Option String)
    (provider : ProviderArgs → ProviderOutcome)
    (hlen : s.length > 500) :
    handleSearch "POST" (.ok ⟨.string s, lim⟩) idx provider =
      ⟨⟨400, .errorMsg "Query too long" "Query must be less than 500 characters"⟩,
        none⟩ := by
  have hs : s ≠ "" := by
    intro h
    rw [h] at hlen
    simp at hlen
  simp [handleSearch, hs, hlen]

set_option maxRecDepth 8192 in
/-- C8 (witness): a 501-character query is rejected as too long. -/
theorem query_too_long_witness :
    handleSearch "POST"
      (.ok ⟨.string (String.mk (List.replicate 501 'a')), .undef⟩)
      (some "docs") stubProvider =
      ⟨⟨400, .errorMsg "Query too long" "Query must be less than 500 characters"⟩,
        none⟩ :=
  query_too_long (String.mk (List.replicate 501 'a')) .undef (some "docs")
    stubProvider (by simp [String.length])

/-- C9: if the provider call resolves but the response is nullish or lacks
its results field, the handler answers the 500 "Invalid search response"
error — it neither crashes nor returns 200. -/
theorem invalid_provider_response (s idx : String) (lim : JSVal)
    (r : ProviderResponse)
    (hs : s ≠ "") (hlen : s.length ≤ 500) (hidx : idx ≠ "")
    (hr : r = .nullish ∨ r = .obj none) :
    (handleSearch "POST" (.ok ⟨.string s, lim⟩) (some idx)
      (fun _ => .resolves r)).resp = invalidSearchResp ∧
    (handleSearch "POST" (.ok ⟨.string s, lim⟩) (some idx)
      (fun _ => .resolves r)).resp.status ≠ 200 := by
  have hlen' : ¬ s.length > 500 := by omega
  rcases hr with h | h <;> subst h <;>
    exact ⟨by simp [handleSearch, hs, hlen', hidx],
      by simp [handleSearch, hs, hlen', hidx, invalidSearchResp]⟩

/-- C9 (witness): a nullish provider response yields the 500 "Invalid search
response" error. -/
theorem invalid_provider_response_witness :
    (handleSearch "POST" (.ok ⟨.string "deploy app", .undef⟩) (some "docs")
      (fun _ => .resolves .nullish)).resp = invalidSearchResp ∧
    (handleSearch "POST" (.ok ⟨.string "deploy app", .undef⟩) (some "docs")
      (fun _ => .resolves .nullish)).resp.status ≠ 200 :=
  invalid_provider_response "deploy app" "docs" .undef .nullish
    (by decide) (by decide) (by decide) (Or.inl rfl)

/-- C10: a limit explicitly set to null is not defaulted (the destructuring
default applies only to undefined); null coerces to 0 under Math.max, so
the effective limit forwarded to the provider is 1, not 10. -/
theorem null_limit_clamps_to_one (s idx : String)
    (provider : ProviderArgs → ProviderOutcome)
    (hs : s ≠ "") (hlen : s.length ≤ 500) (hidx : idx ≠ "") :
    (handleSearch "POST" (.ok ⟨.string s, .nullV⟩) (some idx)
      provider).providerCall = some ⟨s, some 1, true⟩ := by
  rw [providerCall_of_valid s idx .nullV provider hs hlen hidx]
  simp [sanitizedLimit, toNumber]

/-- C10 (witness): concrete request with limit null is forwarded with
effective limit 1. -/
theorem null_limit_clamps_to_one_witness :
    (handleSearch "POST" (.ok ⟨.string "docs", .nullV⟩) (some "my-index")
      stubProvider).providerCall = some ⟨"docs", some 1, true⟩ :=
  null_limit_clamps_to_one "docs" "my-index" stubProvider
    (by decide) (by decide) (by decide)
